import Mathlib

/-!
Shallow embedding of `src/markers/uncollect.py`, the test-collection
filtering plugin (markers `uncollect` and `uncollectif`), together with
theorems settling the specification's claims about it.

Modelling conventions:
* Fixture values are modelled as strings (`Val`); the only operations the
  code performs on them is passing them to the user predicate, so an opaque
  value type suffices and strings give concrete witnesses.
* A predicate payload (`marker.args[0]`) is either an introspectable plain
  function (`Pred.func` with its `inspect.getargspec(...).args` list and a
  body returning the truthiness of the Python return value) or a
  non-introspectable object (`Pred.nonFunc`, carrying its `bool(...)`
  truthiness); `inspect.getargspec` raising `TypeError` corresponds to the
  `nonFunc` case.
* Python dicts are association lists; `dict.update` with the single key
  `'appliance'` is `dictInsert`.
* `uncollectif` returns `True`, `False` or `None` in Python, modelled as
  `Option Bool` (`none` = Python `None`); raised exceptions are the
  `Except.error` branch.
* The log file and `store.uncollection_stats['uncollectif']` are returned
  explicitly in `ModifyResult` (the audit lines in order, each with its
  trailing newline, and the assigned counter).
-/

namespace Uncollect

/-- Opaque fixture/context values handed to user predicates. -/
abbrev Val := String

/-- The first positional argument of an `uncollectif` marker: either a plain
function that `inspect.getargspec` can introspect (argument-name list plus a
body whose `Bool` result is the truthiness of the Python return value), or a
non-introspectable object for which `getargspec` raises `TypeError`
(carrying its `bool(...)` truthiness). -/
inductive Pred where
  | nonFunc (truthy : Bool)
  | func (argNames : List String) (body : List Val → Bool)

/-- A marker object: positional `args` and the `reason` keyword option
(`kwargs.get('reason')`). -/
structure Marker where
  args : List Pred
  reason : Option String

/-- A collected test item, with the attributes `uncollect.py` reads:
`item.name`, the results of `item.get_marker('uncollect')` and
`item.get_marker('uncollectif')`, the mapping returned by
`extract_fixtures_values(item)`, `item._request.funcargnames`, and the
held appliance exposed by `config.pluginmanager.getplugin('appliance-holder')`
(`none` when no holder plugin is registered). -/
structure Item where
  name : String
  uncollectMarker : Option Marker
  uncollectifMarker : Option Marker
  fixtureValues : List (String × Val)
  funcargnames : List String
  appliance : Option Val

/-- The two marker payload shapes accepted by `get_uncollect_function`:
a single `MarkDecorator`-like object, or an iterable of marker-like
objects (the pytest issue 2400 workaround). -/
inductive MarkerPayload where
  | single (m : Marker)
  | collection (ms : List Marker)

/-- `get_uncollect_function(marker_or_markdecorator)` (lines 61-65):
`marker_or_markdecorator.args[0]` on the decorator shape, and
`list(marker_or_markdecorator)[0].args[0]` on the iterable shape.
`none` models the `IndexError` of `args[0]` / `[0]` on empty input. -/
def get_uncollect_function : MarkerPayload → Option Pred
  | .single m => m.args.head?
  | .collection ms => ms.head?.bind fun m => m.args.head?

/-- The exceptions `uncollectif` can raise: the `IndexError` of
`marker.args[0]` on an argument-less marker, and the two `Exception`s of
lines 107-111.  `missingFixture` carries the test name and the
`missing_argnames` list interpolated into "You asked for a fixture which
wasn't in the function {} prototype {}"; `fixtureNotReady` carries the test
name interpolated into "Failed to uncollect {}, best guess a fixture wasn't
ready" (no parameter names appear in that message). -/
inductive UncollectError where
  | indexError
  | missingFixture (funcName : String) (missing : List String)
  | fixtureNotReady (funcName : String)
deriving DecidableEq

/-- Dict insertion (`values.update({'appliance': a})` semantics): replace the
value at an existing key, otherwise append the binding. -/
def dictInsert (k : String) (v : Val) (d : List (String × Val)) : List (String × Val) :=
  if d.any (fun p => p.1 == k) then
    d.map (fun p => if p.1 == k then (k, v) else p)
  else d ++ [(k, v)]

/-- Lines 89-98: `values = extract_fixtures_values(item)` followed by
`values.update(global_vars)`, where `global_vars` is
`{'appliance': holder.held_appliance}` when the holder plugin is registered
and `{}` otherwise. -/
def mkValues (item : Item) : List (String × Val) :=
  match item.appliance with
  | some a => dictInsert "appliance" a item.fixtureValues
  | none => item.fixtureValues

/-- Line 102: `args = [values[arg] for arg in arg_names]`; the first
unresolvable name raises `KeyError` (the `Except.error` carries that key). -/
def lookupArgs (values : List (String × Val)) : List String → Except String (List Val)
  | [] => Except.ok []
  | a :: rest =>
    match values.lookup a with
    | some v => (lookupArgs values rest).map (fun vs => v :: vs)
    | none => Except.error a

/-- Line 104: `list(set(arg_names) - set(item._request.funcargnames))`,
modelled as the order-preserving list of declared names absent from the
prototype (Python materializes the same names as an unordered set; real
predicates have pairwise-distinct parameter names). -/
def missing_argnames (argNames funcargs : List String) : List String :=
  argNames.filter (fun a => !funcargs.contains a)

/-- `uncollectif(item)` (lines 68-117).  Returns `some true` (collect) when no
`uncollectif` marker is present; on `TypeError` from `getargspec` returns
`not bool(marker.args[0])`; returns `none` (Python `None`, line 101) when the
predicate declares argument names but the combined value mapping is empty;
on a `KeyError` raises one of the two exceptions of lines 107-111; otherwise
calls the predicate on the positionally bound values and returns the negation
of its truthiness. -/
def uncollectif (item : Item) : Except UncollectError (Option Bool) :=
  match item.uncollectifMarker with
  | none => Except.ok (some true)
  | some marker =>
    match get_uncollect_function (MarkerPayload.single marker) with
    | none => Except.error UncollectError.indexError
    | some (Pred.nonFunc t) => Except.ok (some (!t))
    | some (Pred.func argNames body) =>
      let values := mkValues item
      if !argNames.isEmpty && values.isEmpty then
        Except.ok none
      else
        match lookupArgs values argNames with
        | Except.error _ =>
          let missing := missing_argnames argNames item.funcargnames
          if missing.isEmpty then
            Except.error (UncollectError.fixtureNotReady item.name)
          else
            Except.error (UncollectError.missingFixture item.name missing)
        | Except.ok args =>
          Except.ok (some (!(body args)))

/-- Python truthiness of the `uncollectif` return value (`True`/`False`/`None`):
`not None` is `True`. -/
def pyTruthy : Option Bool → Bool
  | none => false
  | some b => b

/-- Line 130: the per-item exclusion test
`item.get_marker('uncollect') or not uncollectif(item)`.  Python `or`
short-circuits, so `uncollectif` is never entered when the `uncollect`
marker is present; an exception raised by `uncollectif` propagates. -/
def excludeDecision (item : Item) : Except UncollectError Bool :=
  match item.uncollectMarker with
  | some _ => Except.ok true
  | none => (uncollectif item).map (fun r => !(pyTruthy r))

/-- Lines 133-134: `uncollect = item.get_marker('uncollect');
marker = uncollect or item.get_marker('uncollectif')`. -/
def auditMarker (item : Item) : Option Marker :=
  match item.uncollectMarker with
  | some m => some m
  | none => item.uncollectifMarker

/-- Lines 135-138: `marker.kwargs.get('reason', "No reason given")` when a
marker is present, else Python `None` (which `str.format` renders "None"). -/
def auditReason (item : Item) : String :=
  match auditMarker item with
  | some m => m.reason.getD "No reason given"
  | none => "None"

/-- Line 139: the audit record `"{} - {}\n".format(item.name, reason)`
written for an excluded item. -/
def auditLine (item : Item) : String :=
  item.name ++ " - " ++ auditReason item ++ "\n"

/-- The loop of lines 128-141: partition the items in order into the kept
list (`new_items`) and the audit lines written to `uncollected.log`; the
first exception aborts the pass. -/
def processItems : List Item → Except UncollectError (List Item × List String)
  | [] => Except.ok ([], [])
  | item :: rest =>
    match excludeDecision item with
    | Except.error e => Except.error e
    | Except.ok excluded =>
      match processItems rest with
      | Except.error e => Except.error e
      | Except.ok (kept, lines) =>
        if excluded then Except.ok (kept, auditLine item :: lines)
        else Except.ok (item :: kept, lines)

/-- Observable outcome of the hook: the filtered item list (`items[:] =
new_items`), the audit lines written to `uncollected.log`, and the value
assigned to `store.uncollection_stats['uncollectif']`. -/
structure ModifyResult where
  newItems : List Item
  logLines : List String
  uncollection_stats : Nat

/-- `pytest_collection_modifyitems` (lines 120-147): run the filtering loop
and record `len_collected - len_filtered` in the run statistics. -/
def pytest_collection_modifyitems (items : List Item) : Except UncollectError ModifyResult :=
  match processItems items with
  | Except.error e => Except.error e
  | Except.ok (kept, lines) =>
    Except.ok { newItems := kept, logLines := lines
                uncollection_stats := items.length - kept.length }

/-! ## General lemmas about the filtering pass -/

/-- Items kept by the pass form a sublist of the input (relative order kept). -/
theorem processItems_sublist (items kept : List Item) (lines : List String)
    (h : processItems items = Except.ok (kept, lines)) : kept.Sublist items := by
  induction items generalizing kept lines with
  | nil =>
    simp only [processItems, Except.ok.injEq, Prod.mk.injEq] at h
    simp [h.1]
  | cons item rest ih =>
    simp only [processItems] at h
    cases hd : excludeDecision item with
    | error e => rw [hd] at h; cases h
    | ok ex =>
      rw [hd] at h
      cases hr : processItems rest with
      | error e => rw [hr] at h; cases h
      | ok p =>
        obtain ⟨k, l⟩ := p
        rw [hr] at h
        cases ex with
        | true =>
          simp only [if_true, Except.ok.injEq, Prod.mk.injEq] at h
          rw [← h.1]
          exact (ih k l hr).cons item
        | false =>
          simp only [Bool.false_eq_true, if_false, Except.ok.injEq, Prod.mk.injEq] at h
          rw [← h.1]
          exact (ih k l hr).cons₂ item

/-- Every item kept by the pass was decided "keep" by the per-item test. -/
theorem processItems_kept_decision (items kept : List Item) (lines : List String)
    (h : processItems items = Except.ok (kept, lines)) :
    ∀ i ∈ kept, excludeDecision i = Except.ok false := by
  induction items generalizing kept lines with
  | nil =>
    simp only [processItems, Except.ok.injEq, Prod.mk.injEq] at h
    obtain ⟨rfl, rfl⟩ := h
    simp
  | cons item rest ih =>
    simp only [processItems] at h
    cases hd : excludeDecision item with
    | error e => rw [hd] at h; cases h
    | ok ex =>
      rw [hd] at h
      cases hr : processItems rest with
      | error e => rw [hr] at h; cases h
      | ok p =>
        obtain ⟨k, l⟩ := p
        rw [hr] at h
        cases ex with
        | true =>
          simp only [if_true, Except.ok.injEq, Prod.mk.injEq] at h
          rw [← h.1]
          exact ih k l hr
        | false =>
          simp only [Bool.false_eq_true, if_false, Except.ok.injEq, Prod.mk.injEq] at h
          rw [← h.1]
          intro i hi
          rcases List.mem_cons.mp hi with hi | hi
          · rw [hi]; exact hd
          · exact ih k l hr i hi

/-- A list every element of which is decided "keep" passes through unchanged
and produces no audit lines. -/
theorem processItems_all_kept (items : List Item)
    (h : ∀ i ∈ items, excludeDecision i = Except.ok false) :
    processItems items = Except.ok (items, []) := by
  induction items with
  | nil => rfl
  | cons item rest ih =>
    simp only [processItems]
    rw [h item (List.mem_cons_self item rest),
        ih (fun i hi => h i (List.mem_cons_of_mem item hi))]
    rfl

/-- Kept items and audit lines account for every input item. -/
theorem processItems_count (items kept : List Item) (lines : List String)
    (h : processItems items = Except.ok (kept, lines)) :
    kept.length + lines.length = items.length := by
  induction items generalizing kept lines with
  | nil =>
    simp only [processItems, Except.ok.injEq, Prod.mk.injEq] at h
    simp [h.1, h.2]
  | cons item rest ih =>
    simp only [processItems] at h
    cases hd : excludeDecision item with
    | error e => rw [hd] at h; cases h
    | ok ex =>
      rw [hd] at h
      cases hr : processItems rest with
      | error e => rw [hr] at h; cases h
      | ok p =>
        obtain ⟨k, l⟩ := p
        rw [hr] at h
        have hkl := ih k l hr
        cases ex with
        | true =>
          simp only [if_true, Except.ok.injEq, Prod.mk.injEq] at h
          rw [← h.1, ← h.2]
          simp only [List.length_cons]
          omega
        | false =>
          simp only [Bool.false_eq_true, if_false, Except.ok.injEq, Prod.mk.injEq] at h
          rw [← h.1, ← h.2]
          simp only [List.length_cons]
          omega

/-- Successful hook runs come from successful passes. -/
theorem modifyitems_ok (items : List Item) (r : ModifyResult)
    (h : pytest_collection_modifyitems items = Except.ok r) :
    processItems items = Except.ok (r.newItems, r.logLines) ∧
      r.uncollection_stats = items.length - r.newItems.length := by
  unfold pytest_collection_modifyitems at h
  cases hp : processItems items with
  | error e => rw [hp] at h; cases h
  | ok p =>
    obtain ⟨k, l⟩ := p
    rw [hp] at h
    cases h
    exact ⟨rfl, rfl⟩

/-! ## Evaluation lemmas for `uncollectif` and `excludeDecision` -/

/-- With no `uncollect` marker, the per-item test is the negated truthiness
of the `uncollectif` return value. -/
theorem excludeDecision_no_uncollect (item : Item)
    (h0 : item.uncollectMarker = none) :
    excludeDecision item = (uncollectif item).map (fun r => !(pyTruthy r)) := by
  simp only [excludeDecision, h0]

/-- `uncollectif` on a non-introspectable first argument (the `TypeError`
fallback of lines 85-87): the negation of `bool(marker.args[0])`. -/
theorem uncollectif_nonFunc (item : Item) (marker : Marker) (t : Bool) (rest : List Pred)
    (hm : item.uncollectifMarker = some marker)
    (ha : marker.args = Pred.nonFunc t :: rest) :
    uncollectif item = Except.ok (some (!t)) := by
  simp only [uncollectif, hm, get_uncollect_function, ha, List.head?]

/-- `uncollectif` on an introspectable predicate with at least one declared
name and an empty combined value mapping: the line 100-101 early `return`
(Python `None`). -/
theorem uncollectif_empty_context (item : Item) (marker : Marker) (names : List String)
    (body : List Val → Bool) (rest : List Pred)
    (hm : item.uncollectifMarker = some marker)
    (ha : marker.args = Pred.func names body :: rest)
    (hn : names ≠ []) (hv : mkValues item = []) :
    uncollectif item = Except.ok none := by
  have hguard : (!names.isEmpty && (mkValues item).isEmpty) = true := by
    cases names with
    | nil => exact absurd rfl hn
    | cons a l => rw [hv]; simp
  simp only [uncollectif, hm, get_uncollect_function, ha, List.head?, hguard, if_true]

/-- `uncollectif` on an introspectable predicate when the empty-context guard
of line 100 does not fire: positional binding either raises one of the two
exceptions or the predicate is invoked and its truthiness negated. -/
theorem uncollectif_func (item : Item) (marker : Marker) (names : List String)
    (body : List Val → Bool) (rest : List Pred)
    (hm : item.uncollectifMarker = some marker)
    (ha : marker.args = Pred.func names body :: rest)
    (hg : names = [] ∨ mkValues item ≠ []) :
    uncollectif item =
      match lookupArgs (mkValues item) names with
      | Except.error _ =>
        if (missing_argnames names item.funcargnames).isEmpty then
          Except.error (UncollectError.fixtureNotReady item.name)
        else
          Except.error (UncollectError.missingFixture item.name
            (missing_argnames names item.funcargnames))
      | Except.ok args => Except.ok (some (!(body args))) := by
  have hguard : (!names.isEmpty && (mkValues item).isEmpty) = false := by
    rcases hg with rfl | hg
    · simp
    · cases hv : mkValues item with
      | nil => exact absurd hv hg
      | cons a l => simp
  simp only [uncollectif, hm, get_uncollect_function, ha, List.head?, hguard,
    Bool.false_eq_true, if_false]

/-! ## Concrete items used by witnesses and counterexamples -/

/-- An unmarked item: kept by the filter. -/
def c5ItemKeep : Item :=
  { name := "test_keep", uncollectMarker := none, uncollectifMarker := none
    fixtureValues := [], funcargnames := [], appliance := none }

/-- An item carrying the unconditional `uncollect` marker: dropped. -/
def c5ItemDrop : Item :=
  { name := "test_drop", uncollectMarker := some { args := [], reason := none }
    uncollectifMarker := none
    fixtureValues := [], funcargnames := [], appliance := none }

/-- An item carrying both markers whose conditional predicate would raise the
missing-fixture exception if evaluated (`foo` resolves nowhere and is not in
the prototype, while the value mapping is non-empty). -/
def c10Item : Item :=
  { name := "test_c10", uncollectMarker := some { args := [], reason := none }
    uncollectifMarker := some { args := [Pred.func ["foo"] (fun _ => false)], reason := none }
    fixtureValues := [("bar", "1")], funcargnames := [], appliance := none }

/-! ## Claim theorems -/

/-- Claim C5: for every input item list on which the pass succeeds, the kept
items form a sublist of the input, i.e. their relative order equals their
relative order in the input list (stable filter, never a reorder). -/
theorem C5_order_preservation (items : List Item) (r : ModifyResult)
    (h : pytest_collection_modifyitems items = Except.ok r) :
    r.newItems.Sublist items :=
  processItems_sublist items r.newItems r.logLines (modifyitems_ok items r h).1

/-- Witness for C5: on a concrete two-item run the kept items are a sublist
of the input. -/
theorem C5_witness :
    List.Sublist [c5ItemKeep] [c5ItemKeep, c5ItemDrop] :=
  C5_order_preservation [c5ItemKeep, c5ItemDrop]
    { newItems := [c5ItemKeep], logLines := ["test_drop - No reason given\n"]
      uncollection_stats := 1 } rfl

/-- Claim C6: the collection filter is idempotent: applying the hook to the
kept-items output of a successful run excludes nothing further (and writes
no audit lines, recording an exclusion count of 0). -/
theorem C6_idempotent (items : List Item) (r : ModifyResult)
    (h : pytest_collection_modifyitems items = Except.ok r) :
    pytest_collection_modifyitems r.newItems =
      Except.ok { newItems := r.newItems, logLines := [], uncollection_stats := 0 } := by
  have hp := (modifyitems_ok items r h).1
  have hall := processItems_kept_decision items r.newItems r.logLines hp
  unfold pytest_collection_modifyitems
  rw [processItems_all_kept r.newItems hall]
  simp

/-- Witness for C6: a concrete second application over the output of a first
application keeps everything and excludes nothing. -/
theorem C6_witness :
    pytest_collection_modifyitems [c5ItemKeep] =
      Except.ok { newItems := [c5ItemKeep], logLines := [], uncollection_stats := 0 } :=
  C6_idempotent [c5ItemKeep, c5ItemDrop]
    { newItems := [c5ItemKeep], logLines := ["test_drop - No reason given\n"]
      uncollection_stats := 1 } rfl

/-- Claim C7: after a successful collection pass, the exclusion count stored
under the `uncollectif` key of the run statistics equals the number of audit
records written during that pass. -/
theorem C7_stats_match_audit (items : List Item) (r : ModifyResult)
    (h : pytest_collection_modifyitems items = Except.ok r) :
    r.uncollection_stats = r.logLines.length := by
  obtain ⟨hp, hs⟩ := modifyitems_ok items r h
  have hc := processItems_count items r.newItems r.logLines hp
  omega

/-- Witness for C7: on a concrete run the recorded count equals the number
of audit lines. -/
theorem C7_witness :
    ({ newItems := [c5ItemKeep], logLines := ["test_drop - No reason given\n"]
       uncollection_stats := 1 } : ModifyResult).uncollection_stats =
      ({ newItems := [c5ItemKeep], logLines := ["test_drop - No reason given\n"]
         uncollection_stats := 1 } : ModifyResult).logLines.length :=
  C7_stats_match_audit [c5ItemKeep, c5ItemDrop]
    { newItems := [c5ItemKeep], logLines := ["test_drop - No reason given\n"]
      uncollection_stats := 1 } rfl

/-- Claim C9: the predicate-extraction function accepts both payload shapes,
a single marker-decorator object and a collection of marker-like objects,
and in both cases returns the first marker's first positional argument. -/
theorem C9_payload_shapes (p : Pred) (rest : List Pred) (r : Option String)
    (ms : List Marker) :
    get_uncollect_function (MarkerPayload.single { args := p :: rest, reason := r }) = some p ∧
    get_uncollect_function
      (MarkerPayload.collection ({ args := p :: rest, reason := r } :: ms)) = some p :=
  ⟨rfl, rfl⟩

/-- Claim C10: for every item carrying the unconditional `uncollect` marker,
the per-item test short-circuits to "excluded" without consulting
`uncollectif`, so no exception from the conditional predicate's evaluation
can surface for such an item. -/
theorem C10_short_circuit (item : Item) (m : Marker)
    (h : item.uncollectMarker = some m) : excludeDecision item = Except.ok true := by
  simp only [excludeDecision, h]

/-- Witness for C10: a concrete item whose `uncollectif` evaluation would
raise the missing-fixture exception is nevertheless excluded without error
because it also carries the `uncollect` marker. -/
theorem C10_witness :
    uncollectif c10Item = Except.error (UncollectError.missingFixture "test_c10" ["foo"]) ∧
    excludeDecision c10Item = Except.ok true :=
  ⟨rfl, C10_short_circuit c10Item { args := [], reason := none } rfl⟩

/-- An excluded item whose `uncollectif` marker carries a configured reason,
used to witness C8 (Scenario C: reason "flaky on 5.2"). -/
def c8Item : Item :=
  { name := "test_c8", uncollectMarker := none
    uncollectifMarker := some { args := [Pred.nonFunc true], reason := some "flaky on 5.2" }
    fixtureValues := [], funcargnames := [], appliance := none }

/-- Claim C8: every excluded item contributes exactly one audit line, of the
form `"<test-name> - <reason>"`; the reason is the `uncollect` marker's
reason when that marker is present (priority over the `uncollectif` reason),
else the `uncollectif` marker's reason, defaulting to "No reason given" when
the selected marker has no configured reason. -/
theorem C8_audit_line (item : Item) (rest keptR : List Item) (linesR : List String)
    (hex : excludeDecision item = Except.ok true)
    (hrest : processItems rest = Except.ok (keptR, linesR)) :
    processItems (item :: rest) = Except.ok (keptR, auditLine item :: linesR) ∧
    auditLine item = item.name ++ " - " ++ auditReason item ++ "\n" ∧
    (∀ m s, item.uncollectMarker = some m → m.reason = some s → auditReason item = s) ∧
    (∀ m s, item.uncollectMarker = none → item.uncollectifMarker = some m →
      m.reason = some s → auditReason item = s) ∧
    (∀ m, item.uncollectMarker = some m → m.reason = none →
      auditReason item = "No reason given") ∧
    (∀ m, item.uncollectMarker = none → item.uncollectifMarker = some m →
      m.reason = none → auditReason item = "No reason given") := by
  refine ⟨?_, rfl, ?_, ?_, ?_, ?_⟩
  · simp only [processItems, hex, hrest, if_true]
  · intro m s hu hr
    simp only [auditReason, auditMarker, hu, hr, Option.getD]
  · intro m s hu hc hr
    simp only [auditReason, auditMarker, hu, hc, hr, Option.getD]
  · intro m hu hr
    simp only [auditReason, auditMarker, hu, hr, Option.getD]
  · intro m hu hc hr
    simp only [auditReason, auditMarker, hu, hc, hr, Option.getD]

/-- Witness for C8: a concrete excluded item with a configured reason yields
exactly one audit line carrying that reason. -/
theorem C8_witness :
    processItems [c8Item] = Except.ok ([], [auditLine c8Item]) ∧
    auditReason c8Item = "flaky on 5.2" :=
  ⟨(C8_audit_line c8Item [] [] [] rfl rfl).1,
   (C8_audit_line c8Item [] [] [] rfl rfl).2.2.2.1
     { args := [Pred.nonFunc true], reason := some "flaky on 5.2" }
     "flaky on 5.2" rfl rfl rfl⟩

/-! ## Corrected claims C1-C4: counterexamples and amended statements -/

/-- Counterexample item for C1: no `uncollect` marker, a predicate that is
the constant-false function (can never evaluate truthy), empty fixture
values, no appliance registered. -/
def c1Item : Item :=
  { name := "test_c1", uncollectMarker := none
    uncollectifMarker := some { args := [Pred.func ["foo"] (fun _ => false)], reason := none }
    fixtureValues := [], funcargnames := ["foo"], appliance := none }

/-- Counterexample for C1: `c1Item` carries no `uncollect` marker and its
`uncollectif` predicate is literally `fun _ => false`, so the predicate
cannot evaluate truthy on any binding, yet the item is excluded (the
empty-context early return of line 100-101 excludes it without evaluating
the predicate).  This refutes the claimed "excluded if and only if". -/
theorem C1_counterexample :
    c1Item.uncollectMarker = none ∧
    c1Item.uncollectifMarker =
      some { args := [Pred.func ["foo"] (fun _ => false)], reason := none } ∧
    excludeDecision c1Item = Except.ok true :=
  ⟨rfl, rfl, rfl⟩

/-- Claim C1 (amended): an item with neither marker is always kept; an item
with the `uncollect` marker is always excluded; an item whose `uncollectif`
predicate declares parameters while the combined value mapping is empty is
excluded without the predicate being evaluated; otherwise, when the
predicate's declared parameters bind successfully, the item is excluded if
and only if the predicate evaluates truthy, and likewise a
non-introspectable first argument excludes the item if and only if it is
truthy. -/
theorem C1_exclusion_invariant :
    (∀ item : Item, item.uncollectMarker = none → item.uncollectifMarker = none →
      excludeDecision item = Except.ok false) ∧
    (∀ (item : Item) (m : Marker), item.uncollectMarker = some m →
      excludeDecision item = Except.ok true) ∧
    (∀ (item : Item) (marker : Marker) (names : List String) (body : List Val → Bool)
      (rest : List Pred), item.uncollectMarker = none →
      item.uncollectifMarker = some marker →
      marker.args = Pred.func names body :: rest →
      names ≠ [] → mkValues item = [] →
      excludeDecision item = Except.ok true) ∧
    (∀ (item : Item) (marker : Marker) (names : List String) (body : List Val → Bool)
      (rest : List Pred) (args : List Val), item.uncollectMarker = none →
      item.uncollectifMarker = some marker →
      marker.args = Pred.func names body :: rest →
      (names = [] ∨ mkValues item ≠ []) →
      lookupArgs (mkValues item) names = Except.ok args →
      (excludeDecision item = Except.ok true ↔ body args = true)) ∧
    (∀ (item : Item) (marker : Marker) (t : Bool) (rest : List Pred),
      item.uncollectMarker = none → item.uncollectifMarker = some marker →
      marker.args = Pred.nonFunc t :: rest →
      (excludeDecision item = Except.ok true ↔ t = true)) := by
  refine ⟨?_, ?_, ?_, ?_, ?_⟩
  · intro item h0 hc
    rw [excludeDecision_no_uncollect item h0]
    simp only [uncollectif, hc, Except.map, pyTruthy]
    rfl
  · intro item m h
    simp only [excludeDecision, h]
  · intro item marker names body rest h0 hm ha hn hv
    rw [excludeDecision_no_uncollect item h0,
        uncollectif_empty_context item marker names body rest hm ha hn hv]
    rfl
  · intro item marker names body rest args h0 hm ha hg hl
    rw [excludeDecision_no_uncollect item h0,
        uncollectif_func item marker names body rest hm ha hg, hl]
    simp [pyTruthy, Except.map]
  · intro item marker t rest h0 hm ha
    rw [excludeDecision_no_uncollect item h0,
        uncollectif_nonFunc item marker t rest hm ha]
    simp [pyTruthy, Except.map]

/-- Witness item for C1: Scenario B, `provider_type = 'vmware'` against the
predicate `provider_type != 'virtualcenter'`. -/
def c1WitnessBody : List Val → Bool := fun args => !((args.getD 0 "") == "virtualcenter")

/-- Witness item for C1 (Scenario B). -/
def c1WitnessItem : Item :=
  { name := "test_x", uncollectMarker := none
    uncollectifMarker :=
      some { args := [Pred.func ["provider_type"] c1WitnessBody], reason := none }
    fixtureValues := [("provider_type", "vmware")], funcargnames := ["provider_type"]
    appliance := none }

/-- Witness for C1: the evaluable-predicate clause applied at Scenario B
excludes the item. -/
theorem C1_witness : excludeDecision c1WitnessItem = Except.ok true :=
  (C1_exclusion_invariant.2.2.2.1 c1WitnessItem
    { args := [Pred.func ["provider_type"] c1WitnessBody], reason := none }
    ["provider_type"] c1WitnessBody [] ["vmware"] rfl rfl rfl
    (Or.inr (by decide)) rfl).mpr rfl

/-- Counterexample item for C2: the predicate declares `a` and `foo`; `a`
resolves from the value mapping, `foo` resolves nowhere, but `foo` IS among
the prototype's `funcargnames`. -/
def c2Item : Item :=
  { name := "test_c2", uncollectMarker := none
    uncollectifMarker := some { args := [Pred.func ["a", "foo"] (fun _ => true)], reason := none }
    fixtureValues := [("a", "1")], funcargnames := ["a", "foo"], appliance := none }

/-- Counterexample for C2: `foo` cannot be bound from any value source while
`a` is resolvable, yet the raised exception is the "Failed to uncollect
test_c2, best guess a fixture wasn't ready" one (`fixtureNotReady`), whose
message names the test but not the offending parameter names, because `foo`
appears in the prototype and so `missing_argnames` is empty. -/
theorem C2_counterexample :
    (mkValues c2Item).lookup "foo" = none ∧
    (mkValues c2Item).lookup "a" = some "1" ∧
    uncollectif c2Item = Except.error (UncollectError.fixtureNotReady "test_c2") :=
  ⟨rfl, rfl, rfl⟩

/-- Claim C2 (amended): when a declared parameter cannot be bound and the
empty-context guard does not fire, the evaluator raises an exception that
propagates to the caller; the exception names the test and the missing
parameter names exactly when at least one declared parameter is absent from
the test function's prototype (`funcargnames`); when every declared
parameter appears in the prototype, the exception names only the test
("best guess a fixture wasn't ready"). -/
theorem C2_unresolvable (item : Item) (marker : Marker) (names : List String)
    (body : List Val → Bool) (rest : List Pred) (badKey : String)
    (hm : item.uncollectifMarker = some marker)
    (ha : marker.args = Pred.func names body :: rest)
    (hg : names = [] ∨ mkValues item ≠ [])
    (hl : lookupArgs (mkValues item) names = Except.error badKey) :
    uncollectif item = Except.error
      (if (missing_argnames names item.funcargnames).isEmpty then
        UncollectError.fixtureNotReady item.name
      else
        UncollectError.missingFixture item.name (missing_argnames names item.funcargnames)) ∧
    (item.uncollectMarker = none → excludeDecision item = Except.error
      (if (missing_argnames names item.funcargnames).isEmpty then
        UncollectError.fixtureNotReady item.name
      else
        UncollectError.missingFixture item.name (missing_argnames names item.funcargnames))) := by
  have h1 : uncollectif item = Except.error
      (if (missing_argnames names item.funcargnames).isEmpty then
        UncollectError.fixtureNotReady item.name
      else
        UncollectError.missingFixture item.name (missing_argnames names item.funcargnames)) := by
    rw [uncollectif_func item marker names body rest hm ha hg, hl]
    by_cases hc : (missing_argnames names item.funcargnames).isEmpty = true
    · simp [hc]
    · simp [hc]
  refine ⟨h1, fun h0 => ?_⟩
  rw [excludeDecision_no_uncollect item h0, h1]
  rfl

/-- Witness item for C2 (amended): `foo` is declared by the predicate,
absent from values and absent from the prototype, while `a` resolves. -/
def c2WitnessItem : Item :=
  { name := "test_c2w", uncollectMarker := none
    uncollectifMarker := some { args := [Pred.func ["a", "foo"] (fun _ => true)], reason := none }
    fixtureValues := [("a", "1")], funcargnames := ["a"], appliance := none }

/-- Witness for C2 (amended): with `foo` outside the prototype the raised
exception is `missingFixture`, naming the test and the missing name, and it
propagates through the per-item exclusion test. -/
theorem C2_witness :
    uncollectif c2WitnessItem =
      Except.error (UncollectError.missingFixture "test_c2w" ["foo"]) ∧
    excludeDecision c2WitnessItem =
      Except.error (UncollectError.missingFixture "test_c2w" ["foo"]) :=
  ⟨(C2_unresolvable c2WitnessItem
      { args := [Pred.func ["a", "foo"] (fun _ => true)], reason := none }
      ["a", "foo"] (fun _ => true) [] "foo" rfl rfl (Or.inr (by decide)) rfl).1,
   (C2_unresolvable c2WitnessItem
      { args := [Pred.func ["a", "foo"] (fun _ => true)], reason := none }
      ["a", "foo"] (fun _ => true) [] "foo" rfl rfl (Or.inr (by decide)) rfl).2 rfl⟩

/-- Counterexample item for C3: the item's own fixture bindings are entirely
empty, but an appliance holder is registered, so the combined value mapping
is non-empty. -/
def c3Item : Item :=
  { name := "test_c3", uncollectMarker := none
    uncollectifMarker := some { args := [Pred.func ["foo"] (fun _ => false)], reason := none }
    fixtureValues := [], funcargnames := [], appliance := some "appliance-object" }

/-- Counterexample for C3: the fixture bindings mapping is entirely empty,
yet the evaluator raises the missing-fixture exception instead of treating
the item as already excluded, because the registered appliance makes the
combined value mapping non-empty and the line 100 guard does not fire. -/
theorem C3_counterexample :
    c3Item.fixtureValues = [] ∧
    uncollectif c3Item = Except.error (UncollectError.missingFixture "test_c3" ["foo"]) :=
  ⟨rfl, rfl⟩

/-- Claim C3 (amended): for every item whose conditional predicate declares
at least one parameter name and whose combined value mapping (fixture
bindings updated with the supplementary appliance value, when registered) is
entirely empty, no exception is raised and the item is treated as already
excluded: `uncollectif` returns Python `None` and the per-item test excludes
the item. -/
theorem C3_empty_context (item : Item) (marker : Marker) (names : List String)
    (body : List Val → Bool) (rest : List Pred)
    (hm : item.uncollectifMarker = some marker)
    (ha : marker.args = Pred.func names body :: rest)
    (hn : names ≠ []) (hv : mkValues item = []) :
    uncollectif item = Except.ok none ∧
    (item.uncollectMarker = none → excludeDecision item = Except.ok true) := by
  have h1 := uncollectif_empty_context item marker names body rest hm ha hn hv
  refine ⟨h1, fun h0 => ?_⟩
  rw [excludeDecision_no_uncollect item h0, h1]
  rfl

/-- Witness item for C3 (amended): empty fixture bindings and no appliance
holder registered. -/
def c3WitnessItem : Item :=
  { name := "test_c3w", uncollectMarker := none
    uncollectifMarker := some { args := [Pred.func ["foo"] (fun _ => false)], reason := none }
    fixtureValues := [], funcargnames := ["foo"], appliance := none }

/-- Witness for C3 (amended): with the combined mapping empty the item is
excluded without error. -/
theorem C3_witness :
    uncollectif c3WitnessItem = Except.ok none ∧
    excludeDecision c3WitnessItem = Except.ok true :=
  ⟨(C3_empty_context c3WitnessItem
      { args := [Pred.func ["foo"] (fun _ => false)], reason := none }
      ["foo"] (fun _ => false) [] rfl rfl (by decide) rfl).1,
   (C3_empty_context c3WitnessItem
      { args := [Pred.func ["foo"] (fun _ => false)], reason := none }
      ["foo"] (fun _ => false) [] rfl rfl (by decide) rfl).2 rfl⟩

/-- Counterexample item for C4: a non-introspectable predicate whose first
stored argument is falsy. -/
def c4Item : Item :=
  { name := "test_c4", uncollectMarker := none
    uncollectifMarker := some { args := [Pred.nonFunc false], reason := none }
    fixtureValues := [], funcargnames := [], appliance := none }

/-- Counterexample for C4: the first stored argument of the
non-introspectable predicate is falsy, yet the item is KEPT, not excluded
(`uncollectif` returns `not bool(False) = True`, so the hook keeps it);
the claim predicts exclusion exactly in this case. -/
theorem C4_counterexample :
    c4Item.uncollectMarker = none ∧
    c4Item.uncollectifMarker = some { args := [Pred.nonFunc false], reason := none } ∧
    excludeDecision c4Item = Except.ok false :=
  ⟨rfl, rfl, rfl⟩

/-- Claim C4 (amended): for every item whose conditional predicate cannot be
introspected as a plain function, the evaluator treats the predicate's first
stored positional argument as a boolean-like literal and returns its logical
negation as the keep decision, so the item is excluded if and only if that
first stored argument is TRUTHY. -/
theorem C4_literal_fallback (item : Item) (marker : Marker) (t : Bool) (rest : List Pred)
    (h0 : item.uncollectMarker = none)
    (hm : item.uncollectifMarker = some marker)
    (ha : marker.args = Pred.nonFunc t :: rest) :
    uncollectif item = Except.ok (some (!t)) ∧
    (excludeDecision item = Except.ok true ↔ t = true) := by
  have h1 := uncollectif_nonFunc item marker t rest hm ha
  refine ⟨h1, ?_⟩
  rw [excludeDecision_no_uncollect item h0, h1]
  simp [pyTruthy, Except.map]

/-- Witness item for C4 (amended): truthy literal. -/
def c4WitnessItem : Item :=
  { name := "test_c4w", uncollectMarker := none
    uncollectifMarker := some { args := [Pred.nonFunc true], reason := none }
    fixtureValues := [], funcargnames := [], appliance := none }

/-- Witness for C4 (amended): a truthy literal excludes the item. -/
theorem C4_witness : excludeDecision c4WitnessItem = Except.ok true :=
  (C4_literal_fallback c4WitnessItem { args := [Pred.nonFunc true], reason := none }
    true [] rfl rfl rfl).2.mpr rfl

end Uncollect
